import Mathlib

/-!
Verification development for the nsec/badge-conference network core.

The repository ships two headers, `src/include/network/network_handler.hpp`
and `src/include/badge.hpp`. All enumerations, bit-field widths and the
constructor signature are embedded directly from those headers. The bodies
of the member functions live in implementation units that are not part of
the source tree, so the behaviour of `enqueue_message`, the deframer
(`_handle_incoming_data`), the wire protocol state machine and the
identity exchanger is modelled from the written specification, as noted on
each definition.
-/

namespace NsecBadge

/-- Embedded from network_handler.hpp: enum class peer_relative_position. -/
inductive peer_relative_position
  | LEFT
  | RIGHT
  deriving DecidableEq, Repr

/-- Embedded from network_handler.hpp: enum class application_message_action
with implicit C++ enumerator values 0, 1, 2. -/
inductive application_message_action
  | SWALLOW
  | FORWARD
  | RESET
  deriving DecidableEq, Repr

/-- Numeric value of each application_message_action enumerator, as assigned
by C++ (first enumerator 0, each following one plus one). -/
def application_message_action.toNat : application_message_action → Nat
  | .SWALLOW => 0
  | .FORWARD => 1
  | .RESET => 2

/-- Embedded from network_handler.hpp: enum class handle_message_result. -/
inductive handle_message_result
  | SWALLOW
  | FORWARD
  | RESET
  | SEND_ANNOUNCE
  | SEND_ANNOUNCE_REPLY
  | END_OF_PEER_TURN
  deriving DecidableEq, Repr

/-- Numeric value of each handle_message_result enumerator. The header sets
SWALLOW = int(application_message_action::SWALLOW) and
FORWARD = int(application_message_action::FORWARD); the remaining
enumerators carry no initializer, so C++ assigns each the previous value
plus one (RESET = 2, SEND_ANNOUNCE = 3, ...). -/
def handle_message_result.toNat : handle_message_result → Nat
  | .SWALLOW => application_message_action.SWALLOW.toNat
  | .FORWARD => application_message_action.FORWARD.toNat
  | .RESET => application_message_action.FORWARD.toNat + 1
  | .SEND_ANNOUNCE => 3
  | .SEND_ANNOUNCE_REPLY => 4
  | .END_OF_PEER_TURN => 5

/-- Embedded from network_handler.hpp: enum class link_position
(UNKNOWN = 0b00, LEFT_MOST = 0b01, RIGHT_MOST = 0b10, MIDDLE = 0b11). -/
inductive link_position
  | UNKNOWN
  | LEFT_MOST
  | RIGHT_MOST
  | MIDDLE
  deriving DecidableEq, Repr

/-- Embedded from network_handler.hpp: enum class wire_protocol_state
(UNCONNECTED = 0, WAIT_TO_SEND_ANNOUNCE = 1, DISCOVERY = 2, RUNNING = 3). -/
inductive wire_protocol_state
  | UNCONNECTED
  | WAIT_TO_SEND_ANNOUNCE
  | DISCOVERY
  | RUNNING
  deriving DecidableEq, Repr

/-- Embedded from network_handler.hpp: enum class message_reception_state. -/
inductive message_reception_state
  | RECEIVE_MAGIC_BYTE_1
  | RECEIVE_MAGIC_BYTE_2
  | RECEIVE_HEADER
  | RECEIVE_PAYLOAD
  deriving DecidableEq, Repr

/-- Embedded from network_handler.hpp: enum class enqueue_message_result. -/
inductive enqueue_message_result
  | QUEUED
  | UNCONNECTED
  | FULL
  deriving DecidableEq, Repr

/-- Modelled from the spec: the maximum payload size
(config.hpp is absent from the tree; section 4.2 fixes length at most 31,
fitting the 5 bit length field of the header and the 5 bit
_payload_bytes_to_receive and _current_pending_outgoing_message_size
bit-fields of the header file). -/
def protocol_max_message_size : Nat := 31

/-- Modelled from the spec: first synchronization magic byte. The concrete
value is an open question of the spec (section 9, values live in the absent
implementation units); a fixed representative value is chosen here and
documented as the wire contract of the model. -/
def magic_byte_1 : Nat := 170

/-- Modelled from the spec: second synchronization magic byte, chosen
distinct from magic_byte_1. -/
def magic_byte_2 : Nat := 85

/-- A complete message delivered by the deframer: a type tag and the
payload bytes (the declared length is the payload list length). -/
structure wire_message where
  msg_type : Nat
  payload : List Nat
  deriving DecidableEq, Repr

/-- Per-link byte assembly state of the deframer. Mirrors the bit-fields
_current_message_reception_state, _payload_bytes_to_receive and the
message buffer of network_handler.hpp. -/
structure deframer_state where
  reception : message_reception_state
  header_msg_type : Nat
  payload_bytes_to_receive : Nat
  payload_accum : List Nat
  deriving DecidableEq, Repr

/-- The deframer state at power-on and after any resynchronization. -/
def initial_deframer : deframer_state :=
  { reception := .RECEIVE_MAGIC_BYTE_1
    header_msg_type := 0
    payload_bytes_to_receive := 0
    payload_accum := [] }

/-- Modelled from the spec: one byte step of _handle_incoming_data
(section 4.2). Two fixed magic bytes synchronize the receiver; the header
byte packs the 3 bit type and the 5 bit length; payload bytes are
accumulated until the declared count is consumed, at which point the
message is delivered and the receiver returns to RECEIVE_MAGIC_BYTE_1.
A byte failing a magic comparison restarts synchronization (reception back
to RECEIVE_MAGIC_BYTE_1, bookkeeping fields reset); no error is produced. -/
def deframe_byte (s : deframer_state) (b : Nat) :
    deframer_state × Option wire_message :=
  match s.reception with
  | .RECEIVE_MAGIC_BYTE_1 =>
      if b = magic_byte_1 then ({ s with reception := .RECEIVE_MAGIC_BYTE_2 }, none)
      else (initial_deframer, none)
  | .RECEIVE_MAGIC_BYTE_2 =>
      if b = magic_byte_2 then ({ s with reception := .RECEIVE_HEADER }, none)
      else (initial_deframer, none)
  | .RECEIVE_HEADER =>
      if b % 32 = 0 then (initial_deframer, some ⟨b / 32, []⟩)
      else
        ({ reception := .RECEIVE_PAYLOAD
           header_msg_type := b / 32
           payload_bytes_to_receive := b % 32
           payload_accum := [] }, none)
  | .RECEIVE_PAYLOAD =>
      if s.payload_bytes_to_receive ≤ 1 then
        (initial_deframer, some ⟨s.header_msg_type, s.payload_accum ++ [b]⟩)
      else
        ({ s with
            payload_bytes_to_receive := s.payload_bytes_to_receive - 1
            payload_accum := s.payload_accum ++ [b] }, none)

/-- Runs the deframer over a list of bytes delivered within one tick,
collecting every completed message in order. -/
def deframe_list : deframer_state → List Nat → deframer_state × List wire_message
  | s, [] => (s, [])
  | s, b :: rest =>
      let step := deframe_byte s b
      let r := deframe_list step.1 rest
      (r.1, step.2.toList ++ r.2)

/-- Runs the deframer over successive ticks, each tick delivering one chunk
of bytes; reception state carries over between ticks (section 5: a message
can span arbitrarily many ticks). -/
def deframe_ticks : deframer_state → List (List Nat) → deframer_state × List wire_message
  | s, [] => (s, [])
  | s, c :: cs =>
      let r1 := deframe_list s c
      let r2 := deframe_ticks r1.1 cs
      (r2.1, r1.2 ++ r2.2)

/-- Modelled from the spec: the framer emits
[magic_1][magic_2][header: type(3b)+length(5b)][payload] for a queued
message, never partial (sections 4.2 and 6). -/
def frame (t : Nat) (payload : List Nat) : List Nat :=
  magic_byte_1 :: magic_byte_2 :: (t * 32 + payload.length) :: payload

/-- The pending outgoing message slot. Field widths mirror the bit-fields
of network_handler.hpp: direction 1 bit, size 5 bits, type 5 bits, payload
buffer of protocol_max_message_size bytes. -/
structure pending_message where
  direction : peer_relative_position
  msg_type : Nat
  msg_size : Nat
  payload : List Nat
  deriving DecidableEq, Repr

/-- Application-visible notifications of the network handler model. -/
inductive notification
  | disconnection
  | pairing_begin
  | pairing_end
  | message_received
  | message_sent
  deriving DecidableEq, Repr

/-- Embedded from network_handler.hpp lines 38-41: the notifier callbacks
accepted by the network_handler constructor, in declaration order
(disconnection_notifier, pairing_begin_notifier, pairing_end_notifier,
message_received_notifier). -/
def constructor_notifier_channels : List notification :=
  [.disconnection, .pairing_begin, .pairing_end, .message_received]

/-- State of one network_handler instance, restricted to the fields the
claims are about: link position, wire protocol state, last monitor message
timestamp, per-link reception state and the single pending outgoing
message slot. -/
structure handler_state where
  position : link_position
  wire : wire_protocol_state
  last_monitor_ms : Nat
  deframer : deframer_state
  pending : Option pending_message
  deriving DecidableEq, Repr

/-- Power-on state: position UNKNOWN, wire protocol UNCONNECTED, reception
waiting for the first magic byte, no pending message. -/
def initial_handler : handler_state :=
  { position := .UNKNOWN
    wire := .UNCONNECTED
    last_monitor_ms := 0
    deframer := initial_deframer
    pending := none }

/-- Modelled from the spec: enqueue_message (section 4.4). Returns
UNCONNECTED when the wire protocol state is not RUNNING, FULL when a
previous message has not yet been drained, QUEUED otherwise, storing the
message in the single pending slot. The stored type and size pass through
the 5 bit bit-fields _current_pending_outgoing_message_type and
_current_pending_outgoing_message_size declared in network_handler.hpp,
hence the modulo 32 reduction; the payload copy is bounded by the stored
size. -/
def enqueue_message (s : handler_state) (direction : peer_relative_position)
    (msg_type : Nat) (msg_payload : List Nat) (payload_size : Nat) :
    enqueue_message_result × handler_state :=
  if s.wire ≠ .RUNNING then (.UNCONNECTED, s)
  else if s.pending.isSome then (.FULL, s)
  else
    (.QUEUED,
     { s with
        pending := some
          { direction := direction
            msg_type := msg_type % 32
            msg_size := payload_size % 32
            payload := msg_payload.take (payload_size % 32) } })

/-- Modelled from the spec: the pending slot is drained during the next
tick's serial send window; completion clears the slot
(_clear_pending_outgoing_message) and triggers the application-visible
message-sent notification (section 4.4, badge::on_app_message_sent). -/
def drain_pending (s : handler_state) : handler_state × List notification :=
  match s.pending with
  | none => (s, [])
  | some _ => ({ s with pending := none }, [.message_sent])

/-- Modelled from the spec: the wire protocol state a node in UNCONNECTED
adopts once its link position is known (section 4.3): LEFT_MOST moves to
WAIT_TO_SEND_ANNOUNCE, MIDDLE and RIGHT_MOST move directly to DISCOVERY,
UNKNOWN stays UNCONNECTED. -/
def advance_from_unconnected : link_position → wire_protocol_state
  | .UNKNOWN => .UNCONNECTED
  | .LEFT_MOST => .WAIT_TO_SEND_ANNOUNCE
  | .RIGHT_MOST => .DISCOVERY
  | .MIDDLE => .DISCOVERY

/-- Modelled from the spec: _reset. Reverts the wire protocol to
UNCONNECTED, resynchronizes reception (reception state back to
RECEIVE_MAGIC_BYTE_1 on any link-down event, section 3) and discards any
in-flight pending message (section 4.1), keeping the freshly computed
position. -/
def handler_reset (s : handler_state) (p : link_position) : handler_state :=
  { s with
      position := p
      wire := .UNCONNECTED
      deframer := initial_deframer
      pending := none }

/-- Events driving the wire protocol state machine model inside run. -/
inductive wire_event
  | topology_change (new_pos : link_position)
  | unconnected_advance
  | announce_wait_elapsed
  | discovery_complete (now_ms : Nat)
  | monitor_received (now_ms : Nat)
  | tick_monitor_check (now_ms : Nat)
  | protocol_violation
  | receive_byte (b : Nat)
  deriving DecidableEq, Repr

/-- Modelled from the spec: one transition of the wire protocol state
machine (sections 4.1, 4.3, 7), paired with the notifications it emits.
A topology change recomputes the position; from UNCONNECTED the node
advances per advance_from_unconnected, from any other state it resets to
UNCONNECTED (surfaced as a disconnection only when a connection existed,
that is from RUNNING). The bounded announce wait moves WAIT_TO_SEND_ANNOUNCE
to DISCOVERY; completed discovery moves to RUNNING and begins pairing; a
monitor message refreshes the keepalive timestamp; the periodic check
resets to UNCONNECTED when no monitor message arrived within timeout_ms; a
protocol violation is treated as a topology error; a received byte only
advances the deframer. -/
def wire_step (timeout_ms : Nat) (s : handler_state) :
    wire_event → handler_state × List notification
  | .topology_change p =>
      if s.wire = .UNCONNECTED then
        ({ s with position := p, wire := advance_from_unconnected p }, [])
      else
        (handler_reset s p, if s.wire = .RUNNING then [.disconnection] else [])
  | .unconnected_advance =>
      if s.wire = .UNCONNECTED then
        ({ s with wire := advance_from_unconnected s.position }, [])
      else (s, [])
  | .announce_wait_elapsed =>
      if s.wire = .WAIT_TO_SEND_ANNOUNCE then
        ({ s with wire := .DISCOVERY }, [])
      else (s, [])
  | .discovery_complete now_ms =>
      if s.wire = .DISCOVERY then
        ({ s with wire := .RUNNING, last_monitor_ms := now_ms }, [.pairing_begin])
      else (s, [])
  | .monitor_received now_ms =>
      if s.wire = .RUNNING then ({ s with last_monitor_ms := now_ms }, [])
      else (s, [])
  | .tick_monitor_check now_ms =>
      if s.wire = .RUNNING ∧ s.last_monitor_ms + timeout_ms < now_ms then
        (handler_reset s s.position, [.disconnection])
      else (s, [])
  | .protocol_violation =>
      if s.wire = .UNCONNECTED then (s, [])
      else (handler_reset s s.position, if s.wire = .RUNNING then [.disconnection] else [])
  | .receive_byte b =>
      ({ s with deframer := (deframe_byte s.deframer b).1 }, [])

/-- Reachability of a handler state from power-on under wire protocol
events, message enqueueing and slot drains. -/
inductive reachable (timeout_ms : Nat) : handler_state → Prop
  | init : reachable timeout_ms initial_handler
  | wire (s : handler_state) (e : wire_event) :
      reachable timeout_ms s → reachable timeout_ms (wire_step timeout_ms s e).1
  | enq (s : handler_state) (d : peer_relative_position) (t : Nat)
      (p : List Nat) (n : Nat) :
      reachable timeout_ms s → reachable timeout_ms (enqueue_message s d t p n).2
  | drain (s : handler_state) :
      reachable timeout_ms s → reachable timeout_ms (drain_pending s).1

/-- Embedded from badge.hpp: enum class network_app_state. -/
inductive network_app_state
  | UNCONNECTED
  | EXCHANGING_IDS
  | ANIMATE_PAIRING
  | IDLE
  deriving DecidableEq, Repr

/-- Embedded from badge.hpp: enum class badge_discovered_result. -/
inductive badge_discovered_result
  | NEW
  | ALREADY_KNOWN
  deriving DecidableEq, Repr

/-- Modelled from the spec: badge connection state machine reaction to
on_badge_discovery_completed (badge section of the spec): completion of the
identity exchange moves EXCHANGING_IDS to ANIMATE_PAIRING; other states are
unaffected. -/
def badge_on_discovery_completed : network_app_state → network_app_state
  | .EXCHANGING_IDS => .ANIMATE_PAIRING
  | s => s

/-- Modelled from the spec: any disconnection notification unconditionally
returns the badge connection state machine to UNCONNECTED. -/
def badge_on_disconnection : network_app_state → network_app_state :=
  fun _ => .UNCONNECTED

/-- State of badge::network_id_exchanger; fields mirror the bit-fields of
badge.hpp (counters 5 bits, flags 1 bit). The flag
send_ours_on_next_send_complete records that this node must still inject
its own identity; done_after_sending_ours records that it is done once its
own identity has been sent (section 3, identity-exchange counters). -/
structure id_exchanger_state where
  new_badges_discovered : Nat
  message_received_count : Nat
  send_ours_on_next_send_complete : Bool
  direction : Nat
  done_after_sending_ours : Bool
  deriving DecidableEq, Repr

/-- Modelled from the spec: network_id_exchanger::start resets the
counters at the beginning of an exchange round; the node still has to
inject its own identity, so send_ours_on_next_send_complete starts true
and done_after_sending_ours starts false (sections 3 and 4.5). -/
def id_exchanger_start : id_exchanger_state :=
  { new_badges_discovered := 0
    message_received_count := 0
    send_ours_on_next_send_complete := true
    direction := 0
    done_after_sending_ours := false }

/-- Events seen by the identity exchanger: an identity message arriving
(network_id_exchanger::new_message) and the completion of an outgoing send
(network_id_exchanger::message_sent). -/
inductive exchange_event
  | new_message (id : Nat)
  | message_sent
  deriving DecidableEq, Repr

/-- Actions the identity exchanger requests from the badge and the wire
layer. -/
inductive exchange_action
  | report_discovered (id : Nat)
  | forward_identity (id : Nat)
  | inject_own_identity
  | discovery_completed
  deriving DecidableEq, Repr

/-- Modelled from the spec: one step of network_id_exchanger
(section 4.5). A received identity message is reported to the badge
(on_badge_discovered) and counted through the 5 bit
_message_received_count field; when the count reaches the known peer
count the round is complete (on_badge_discovery_completed), otherwise the
identity is relayed onward. A completed send injects this node's own
identity exactly when send_ours_on_next_send_complete is still set, then
clears that flag and sets done_after_sending_ours, so no later send
completion can inject again. -/
def id_exchanger_step (peer_count : Nat) (s : id_exchanger_state) :
    exchange_event → id_exchanger_state × List exchange_action
  | .new_message id =>
      let cnt := (s.message_received_count + 1) % 32
      let s1 := { s with message_received_count := cnt }
      if cnt = peer_count then (s1, [.report_discovered id, .discovery_completed])
      else (s1, [.report_discovered id, .forward_identity id])
  | .message_sent =>
      if s.send_ours_on_next_send_complete then
        ({ s with
            send_ours_on_next_send_complete := false
            done_after_sending_ours := true }, [.inject_own_identity])
      else (s, [])

/-- Runs the identity exchanger over a list of events, collecting every
requested action in order. -/
def id_exchanger_run (peer_count : Nat) :
    id_exchanger_state → List exchange_event → id_exchanger_state × List exchange_action
  | s, [] => (s, [])
  | s, e :: es =>
      let step := id_exchanger_step peer_count s e
      let r := id_exchanger_run peer_count step.1 es
      (r.1, step.2 ++ r.2)

/-- Number of own-identity injections among a list of exchanger actions. -/
def count_injections : List exchange_action → Nat
  | [] => 0
  | .report_discovered _ :: rest => count_injections rest
  | .forward_identity _ :: rest => count_injections rest
  | .inject_own_identity :: rest => count_injections rest + 1
  | .discovery_completed :: rest => count_injections rest

/-- Number of received identity messages among a list of exchanger
events. -/
def count_new_messages : List exchange_event → Nat
  | [] => 0
  | .new_message _ :: rest => count_new_messages rest + 1
  | .message_sent :: rest => count_new_messages rest

/-- Whether a list of exchanger events contains a send completion. -/
def has_message_sent : List exchange_event → Bool
  | [] => false
  | .message_sent :: _ => true
  | .new_message _ :: rest => has_message_sent rest

/-- A sample handler state in RUNNING with an empty pending slot, used to
instantiate theorems at concrete inputs. -/
def sample_running : handler_state :=
  { position := .MIDDLE
    wire := .RUNNING
    last_monitor_ms := 5
    deframer := initial_deframer
    pending := none }

/-- A sample handler state in RUNNING with an occupied pending slot. -/
def sample_pending : handler_state :=
  { sample_running with
      pending := some { direction := .LEFT, msg_type := 4, msg_size := 1, payload := [9] } }

/-- Claim C8: the internal handle_message_result enum and the public
application_message_action enum share a numeric space on their common
constants: SWALLOW, FORWARD and RESET carry the same numeric values in
both enums, so the value returned by the application's message-received
callback can directly control relay behaviour. -/
theorem C8_shared_numeric_space :
    handle_message_result.SWALLOW.toNat = application_message_action.SWALLOW.toNat ∧
    handle_message_result.FORWARD.toNat = application_message_action.FORWARD.toNat ∧
    handle_message_result.RESET.toNat = application_message_action.RESET.toNat := by
  decide

/-- Claim C1: enqueue_message returns UNCONNECTED whenever the wire
protocol state is not RUNNING, FULL when a previously queued message has
not yet been drained, and QUEUED on success; a second call made before the
first message is drained returns FULL, and a call made after the pending
message has been drained (message sent) returns QUEUED. -/
theorem C1_enqueue_results (s : handler_state) (d d2 : peer_relative_position)
    (t t2 n n2 : Nat) (p p2 : List Nat) :
    (s.wire ≠ .RUNNING → (enqueue_message s d t p n).1 = .UNCONNECTED) ∧
    (s.wire = .RUNNING → s.pending.isSome → (enqueue_message s d t p n).1 = .FULL) ∧
    (s.wire = .RUNNING → s.pending = none → (enqueue_message s d t p n).1 = .QUEUED) ∧
    (s.wire = .RUNNING → s.pending = none →
      (enqueue_message (enqueue_message s d t p n).2 d2 t2 p2 n2).1 = .FULL) ∧
    (s.wire = .RUNNING → (enqueue_message (drain_pending s).1 d t p n).1 = .QUEUED) := by
  refine ⟨?_, ?_, ?_, ?_, ?_⟩
  · intro hw
    simp [enqueue_message, hw]
  · intro hw hp
    simp [enqueue_message, hw, hp]
  · intro hw hp
    simp [enqueue_message, hw, hp]
  · intro hw hp
    simp [enqueue_message, hw, hp]
  · intro hw
    cases hpd : s.pending <;> simp [enqueue_message, drain_pending, hpd, hw]

/-- Witness for C1 at a concrete RUNNING state with an empty slot. -/
theorem C1_enqueue_results_witness :
    (sample_running.wire ≠ .RUNNING →
      (enqueue_message sample_running .LEFT 3 [7] 1).1 = .UNCONNECTED) ∧
    (sample_running.wire = .RUNNING → sample_running.pending.isSome →
      (enqueue_message sample_running .LEFT 3 [7] 1).1 = .FULL) ∧
    (sample_running.wire = .RUNNING → sample_running.pending = none →
      (enqueue_message sample_running .LEFT 3 [7] 1).1 = .QUEUED) ∧
    (sample_running.wire = .RUNNING → sample_running.pending = none →
      (enqueue_message (enqueue_message sample_running .LEFT 3 [7] 1).2
        .RIGHT 4 [8] 1).1 = .FULL) ∧
    (sample_running.wire = .RUNNING →
      (enqueue_message (drain_pending sample_running).1 .LEFT 3 [7] 1).1 = .QUEUED) :=
  C1_enqueue_results sample_running .LEFT .RIGHT 3 4 1 1 [7] [8]

/-- Claim C10: enqueue_message is atomic on failure: a call that does not
return QUEUED leaves the entire handler state unchanged, in particular the
pending slot and the wire protocol state. -/
theorem C10_enqueue_atomic_on_failure (s : handler_state)
    (d : peer_relative_position) (t : Nat) (p : List Nat) (n : Nat)
    (h : (enqueue_message s d t p n).1 ≠ .QUEUED) :
    (enqueue_message s d t p n).2 = s := by
  unfold enqueue_message at *
  split_ifs at * <;> simp_all

/-- Witness for C10: at power-on (state UNCONNECTED) the call fails with
UNCONNECTED and the state is untouched. -/
theorem C10_enqueue_atomic_on_failure_witness :
    (enqueue_message initial_handler .LEFT 3 [1] 1).2 = initial_handler :=
  C10_enqueue_atomic_on_failure initial_handler .LEFT 3 [1] 1 (by decide)

/-- Counterexample to claim C7: the pending slot type tag is a 5 bit
bit-field (_current_pending_outgoing_message_type : 5 in
network_handler.hpp), not 8 bit wide: enqueueing msg_type 255 succeeds but
stores tag 31. -/
theorem C7_counterexample :
    (enqueue_message sample_running .LEFT 255 [] 0).1 = .QUEUED ∧
    (enqueue_message sample_running .LEFT 255 [] 0).2.pending =
      some { direction := .LEFT, msg_type := 31, msg_size := 0, payload := [] } ∧
    (31 : Nat) ≠ 255 := by
  decide

/-- Claim C7 (amended): when enqueue_message returns QUEUED, the type tag
stored in the pending slot equals the msg_type argument reduced modulo 32
(the slot is a 5 bit bit-field); it equals the argument exactly for
msg_type below 32. -/
theorem C7_type_tag_amended (s : handler_state) (d : peer_relative_position)
    (t : Nat) (p : List Nat) (n : Nat)
    (h : (enqueue_message s d t p n).1 = .QUEUED) :
    ∃ m, (enqueue_message s d t p n).2.pending = some m ∧
      m.msg_type = t % 32 ∧ (t < 32 → m.msg_type = t) := by
  unfold enqueue_message at *
  split_ifs at *
  simp_all

/-- Witness for the amended C7 at msg_type 9 in a RUNNING state. -/
theorem C7_type_tag_amended_witness :
    ∃ m, (enqueue_message sample_running .LEFT 9 [] 0).2.pending = some m ∧
      m.msg_type = 9 % 32 ∧ (9 < 32 → m.msg_type = 9) :=
  C7_type_tag_amended sample_running .LEFT 9 [] 0 (by decide)

/-- Counterexample to claim C9: the notification interface supplied to the
network_handler constructor consists of exactly four callbacks
(disconnection, pairing-begin, pairing-end, message-received); none of
them is a message-sent channel, so the message-sent notification cannot be
delivered through that interface. -/
theorem C9_counterexample :
    constructor_notifier_channels.length = 4 ∧
    notification.message_sent ∉ constructor_notifier_channels := by
  decide

/-- Claim C9 (amended): whenever the pending outgoing message is drained
during a tick, the slot is cleared and the message-sent notification is
emitted in that same tick (reaching badge::on_app_message_sent), but this
notification travels outside the constructor-injected notifier interface,
which carries exactly disconnection, pairing-begin, pairing-end and
message-received. -/
theorem C9_message_sent_amended (s : handler_state)
    (h : s.pending.isSome) :
    (drain_pending s).1.pending = none ∧
    (drain_pending s).2 = [.message_sent] ∧
    constructor_notifier_channels =
      [.disconnection, .pairing_begin, .pairing_end, .message_received] ∧
    notification.message_sent ∉ constructor_notifier_channels := by
  cases hpd : s.pending with
  | none => simp [hpd] at h
  | some m =>
      exact ⟨by simp [drain_pending, hpd], by simp [drain_pending, hpd], rfl, by decide⟩

/-- Witness for the amended C9 at a concrete state with a pending
message. -/
theorem C9_message_sent_amended_witness :
    (drain_pending sample_pending).1.pending = none ∧
    (drain_pending sample_pending).2 = [.message_sent] ∧
    constructor_notifier_channels =
      [.disconnection, .pairing_begin, .pairing_end, .message_received] ∧
    notification.message_sent ∉ constructor_notifier_channels :=
  C9_message_sent_amended sample_pending (by decide)

/-- Deframing a concatenation of byte lists processes the second list from
the state the first one left behind, concatenating the delivered
messages. -/
theorem deframe_list_append (s : deframer_state) (l1 l2 : List Nat) :
    deframe_list s (l1 ++ l2) =
      ((deframe_list (deframe_list s l1).1 l2).1,
       (deframe_list s l1).2 ++ (deframe_list (deframe_list s l1).1 l2).2) := by
  induction l1 generalizing s with
  | nil => simp [deframe_list]
  | cons b rest ih => simp [deframe_list, ih, List.append_assoc]

/-- Tick-chunked deframing equals deframing of the flattened byte
stream: the receiver carries its state across ticks. -/
theorem deframe_ticks_eq_flatten (s : deframer_state) (cs : List (List Nat)) :
    deframe_ticks s cs = deframe_list s cs.flatten := by
  induction cs generalizing s with
  | nil => simp [deframe_ticks, deframe_list]
  | cons c rest ih => simp [deframe_ticks, deframe_list_append, ih]

/-- One step of list deframing, spelled out. -/
theorem deframe_list_cons (s : deframer_state) (b : Nat) (rest : List Nat) :
    deframe_list s (b :: rest) =
      ((deframe_list (deframe_byte s b).1 rest).1,
       (deframe_byte s b).2.toList ++ (deframe_list (deframe_byte s b).1 rest).2) :=
  rfl

/-- Feeding exactly the declared number of payload bytes delivers one
message carrying the accumulated payload and resynchronizes the
receiver. -/
theorem deframe_payload_run (t : Nat) (acc p : List Nat) (hp : p ≠ []) :
    deframe_list
      { reception := .RECEIVE_PAYLOAD
        header_msg_type := t
        payload_bytes_to_receive := p.length
        payload_accum := acc } p
      = (initial_deframer, [⟨t, acc ++ p⟩]) := by
  induction p generalizing acc with
  | nil => exact absurd rfl hp
  | cons b rest ih =>
      rw [deframe_list_cons]
      cases rest with
      | nil => simp [deframe_byte, deframe_list]
      | cons c cs =>
          have hc : ¬ (cs.length + 1 + 1 ≤ 1) := by omega
          have hb : deframe_byte
              { reception := .RECEIVE_PAYLOAD
                header_msg_type := t
                payload_bytes_to_receive := (b :: c :: cs).length
                payload_accum := acc } b =
              ({ reception := .RECEIVE_PAYLOAD
                 header_msg_type := t
                 payload_bytes_to_receive := (c :: cs).length
                 payload_accum := acc ++ [b] }, none) := by
            simp only [deframe_byte, List.length_cons, Nat.add_sub_cancel,
              if_neg hc]
          rw [hb, ih (acc ++ [b]) (by simp)]
          simp

/-- Framing a message and deframing the resulting bytes from a freshly
synchronized receiver yields exactly that message and returns the receiver
to its initial state. -/
theorem frame_roundtrip (t : Nat) (p : List Nat) (_ht : t < 8)
    (hlen : p.length ≤ 31) :
    deframe_list initial_deframer (frame t p) = (initial_deframer, [⟨t, p⟩]) := by
  have h1 : deframe_byte initial_deframer magic_byte_1 =
      ({ initial_deframer with reception := .RECEIVE_MAGIC_BYTE_2 }, none) := by
    simp [deframe_byte, initial_deframer]
  have h2 : deframe_byte
      { initial_deframer with reception := .RECEIVE_MAGIC_BYTE_2 } magic_byte_2 =
      ({ initial_deframer with reception := .RECEIVE_HEADER }, none) := by
    simp [deframe_byte, initial_deframer]
  cases p with
  | nil =>
      have hdiv : (t * 32) / 32 = t := by omega
      have h3 : deframe_byte
          { initial_deframer with reception := .RECEIVE_HEADER } (t * 32 + 0) =
          (initial_deframer, some ⟨t, []⟩) := by
        simp [deframe_byte, initial_deframer, Nat.mul_mod_left, hdiv]
      simp only [frame, List.length_nil]
      rw [deframe_list_cons, h1, deframe_list_cons, h2, deframe_list_cons, h3]
      simp [deframe_list]
  | cons b rest =>
      have hl : rest.length + 1 ≤ 31 := by simpa using hlen
      have hmod : (t * 32 + (rest.length + 1)) % 32 = rest.length + 1 := by omega
      have hdiv : (t * 32 + (rest.length + 1)) / 32 = t := by omega
      have hne : ¬ (rest.length + 1 = 0) := by omega
      have h3 : deframe_byte
          { initial_deframer with reception := .RECEIVE_HEADER }
          (t * 32 + (rest.length + 1)) =
          ({ reception := .RECEIVE_PAYLOAD
             header_msg_type := t
             payload_bytes_to_receive := rest.length + 1
             payload_accum := [] }, none) := by
        simp only [deframe_byte, initial_deframer, hmod, hdiv, if_neg hne]
      have hpay := deframe_payload_run t [] (b :: rest) (by simp)
      simp only [List.length_cons] at hpay
      simp only [frame, List.length_cons]
      rw [deframe_list_cons, h1, deframe_list_cons, h2, deframe_list_cons, h3,
        hpay]
      simp

/-- Claim C2: framing and deframing round-trip. For every 3 bit message
type, every payload of length 0..31 and every split of the framed bytes
across ticks, the deframer delivers exactly one complete message whose
type, declared length and payload equal what was framed. -/
theorem C2_frame_deframe_roundtrip (t : Nat) (p : List Nat)
    (chunks : List (List Nat)) (ht : t < 8) (hlen : p.length ≤ 31)
    (hchunks : chunks.flatten = frame t p) :
    deframe_ticks initial_deframer chunks = (initial_deframer, [⟨t, p⟩]) := by
  rw [deframe_ticks_eq_flatten, hchunks]
  exact frame_roundtrip t p ht hlen

/-- Witness for C2: the frame for type 2 with payload [9, 8] split over
three ticks is reassembled into exactly that message. -/
theorem C2_frame_deframe_roundtrip_witness :
    deframe_ticks initial_deframer [[170], [85, 66], [9, 8]] =
      (initial_deframer, [⟨2, [9, 8]⟩]) :=
  C2_frame_deframe_roundtrip 2 [9, 8] [[170], [85, 66], [9, 8]]
    (by decide) (by decide) (by decide)

/-- Counterexample to claim C4: an arbitrary corrupt byte sequence before
a well-formed frame does not always let that frame through. The corrupt
bytes [170, 85, 3] form a truncated frame announcing three payload bytes,
so the following valid frame for message type 2 with empty payload
(bytes [170, 85, 64]) is swallowed as payload of a garbage message and is
never delivered. -/
theorem C4_counterexample :
    (deframe_list initial_deframer ([170, 85, 3] ++ frame 2 [])).2 =
      [⟨0, [170, 85, 64]⟩] ∧
    (⟨2, []⟩ : wire_message) ∉
      (deframe_list initial_deframer ([170, 85, 3] ++ frame 2 [])).2 := by
  decide

/-- Claim C4 (amended): resynchronization is self-healing for every
corrupt pre-stream that leaves the receiver back in its freshly
synchronized state (in particular any sequence of bytes failing the magic
comparisons): the following well-formed frame is still delivered after
whatever the corrupt bytes produced. Moreover any byte failing a magic
comparison returns the reception state to RECEIVE_MAGIC_BYTE_1 without
surfacing an error, and receiving a byte never changes the wire protocol
state (the link is never taken down by framing noise). -/
theorem C4_selfhealing_amended (t : Nat) (p junk : List Nat)
    (ht : t < 8) (hlen : p.length ≤ 31)
    (hjunk : (deframe_list initial_deframer junk).1 = initial_deframer) :
    (deframe_list initial_deframer (junk ++ frame t p)).2 =
      (deframe_list initial_deframer junk).2 ++ [⟨t, p⟩] ∧
    (∀ (s : deframer_state) (b : Nat),
      (s.reception = .RECEIVE_MAGIC_BYTE_1 ∧ b ≠ magic_byte_1) ∨
      (s.reception = .RECEIVE_MAGIC_BYTE_2 ∧ b ≠ magic_byte_2) →
      (deframe_byte s b).1 = initial_deframer ∧ (deframe_byte s b).2 = none) ∧
    (∀ (timeout_ms : Nat) (hs : handler_state) (b : Nat),
      (wire_step timeout_ms hs (.receive_byte b)).1.wire = hs.wire) := by
  refine ⟨?_, ?_, ?_⟩
  · rw [deframe_list_append, hjunk, frame_roundtrip t p ht hlen]
  · rintro s b (⟨h1, h2⟩ | ⟨h1, h2⟩) <;> simp [deframe_byte, h1, h2]
  · intro timeout_ms hs b
    simp [wire_step]

/-- Witness for the amended C4: two junk bytes that match no magic value,
then the frame for type 2 with payload [9, 8]. -/
theorem C4_selfhealing_amended_witness :
    (deframe_list initial_deframer ([7, 9] ++ frame 2 [9, 8])).2 =
      (deframe_list initial_deframer [7, 9]).2 ++ [⟨2, [9, 8]⟩] ∧
    (∀ (s : deframer_state) (b : Nat),
      (s.reception = .RECEIVE_MAGIC_BYTE_1 ∧ b ≠ magic_byte_1) ∨
      (s.reception = .RECEIVE_MAGIC_BYTE_2 ∧ b ≠ magic_byte_2) →
      (deframe_byte s b).1 = initial_deframer ∧ (deframe_byte s b).2 = none) ∧
    (∀ (timeout_ms : Nat) (hs : handler_state) (b : Nat),
      (wire_step timeout_ms hs (.receive_byte b)).1.wire = hs.wire) :=
  C4_selfhealing_amended 2 [9, 8] [7, 9] (by decide) (by decide) (by decide)

/-- Counterexample to claim C5: framing corruption does not put the wire
protocol state machine into UNCONNECTED. In RUNNING, a byte failing the
second magic comparison (7 instead of 85) resynchronizes the receiver
(reception back to RECEIVE_MAGIC_BYTE_1) while the wire protocol state
stays RUNNING. -/
theorem C5_counterexample :
    (wire_step 1000
      { position := .MIDDLE
        wire := .RUNNING
        last_monitor_ms := 0
        deframer :=
          { reception := .RECEIVE_MAGIC_BYTE_2
            header_msg_type := 0
            payload_bytes_to_receive := 0
            payload_accum := [] }
        pending := none }
      (.receive_byte 7)).1.wire = .RUNNING ∧
    (wire_step 1000
      { position := .MIDDLE
        wire := .RUNNING
        last_monitor_ms := 0
        deframer :=
          { reception := .RECEIVE_MAGIC_BYTE_2
            header_msg_type := 0
            payload_bytes_to_receive := 0
            payload_accum := [] }
        pending := none }
      (.receive_byte 7)).1.deframer.reception = .RECEIVE_MAGIC_BYTE_1 ∧
    wire_protocol_state.RUNNING ≠ wire_protocol_state.UNCONNECTED := by
  decide

/-- Claim C5 (amended): in RUNNING, when no monitor message has been
observed for longer than the configured timeout by the time of the
current tick, the wire protocol state resets to UNCONNECTED and the
disconnection notifier is invoked. A topology change and a protocol
violation from RUNNING likewise leave the machine in UNCONNECTED; framing
corruption, by contrast, is recovered locally by the reception state
machine and never changes the wire protocol state. -/
theorem C5_failure_paths_amended (timeout_ms now_ms : Nat)
    (s : handler_state) (h : s.wire = .RUNNING) :
    (s.last_monitor_ms + timeout_ms < now_ms →
      (wire_step timeout_ms s (.tick_monitor_check now_ms)).1.wire = .UNCONNECTED ∧
      (wire_step timeout_ms s (.tick_monitor_check now_ms)).2 = [.disconnection]) ∧
    (∀ p, (wire_step timeout_ms s (.topology_change p)).1.wire = .UNCONNECTED) ∧
    (wire_step timeout_ms s .protocol_violation).1.wire = .UNCONNECTED ∧
    (∀ b, (wire_step timeout_ms s (.receive_byte b)).1.wire = s.wire) := by
  refine ⟨?_, ?_, ?_, ?_⟩
  · intro hlt
    simp [wire_step, h, hlt, handler_reset]
  · intro p
    simp [wire_step, h, handler_reset]
  · simp [wire_step, h, handler_reset]
  · intro b
    simp [wire_step]

/-- Witness for the amended C5 at a concrete RUNNING state whose last
monitor message is long overdue. -/
theorem C5_failure_paths_amended_witness :
    (sample_running.last_monitor_ms + 10 < 100 →
      (wire_step 10 sample_running (.tick_monitor_check 100)).1.wire = .UNCONNECTED ∧
      (wire_step 10 sample_running (.tick_monitor_check 100)).2 = [.disconnection]) ∧
    (∀ p, (wire_step 10 sample_running (.topology_change p)).1.wire = .UNCONNECTED) ∧
    (wire_step 10 sample_running .protocol_violation).1.wire = .UNCONNECTED ∧
    (∀ b, (wire_step 10 sample_running (.receive_byte b)).1.wire =
      sample_running.wire) :=
  C5_failure_paths_amended 10 100 sample_running rfl

/-- advance_from_unconnected yields WAIT_TO_SEND_ANNOUNCE exactly for the
LEFT_MOST position. -/
theorem advance_wait_iff (p : link_position) :
    advance_from_unconnected p = .WAIT_TO_SEND_ANNOUNCE ↔ p = .LEFT_MOST := by
  cases p <;> simp [advance_from_unconnected]

/-- The invariant that WAIT_TO_SEND_ANNOUNCE implies a LEFT_MOST position
is preserved by every wire event, every enqueue and every drain, hence
holds in every reachable handler state. -/
theorem reachable_wait_leftmost (timeout_ms : Nat) (s : handler_state)
    (h : reachable timeout_ms s) :
    s.wire = .WAIT_TO_SEND_ANNOUNCE → s.position = .LEFT_MOST := by
  induction h with
  | init => intro hw; simp [initial_handler] at hw
  | wire s e hr ih =>
      cases e with
      | topology_change p =>
          by_cases hu : s.wire = .UNCONNECTED
          · cases p <;> simp [wire_step, hu, advance_from_unconnected]
          · simp [wire_step, hu, handler_reset]
      | unconnected_advance =>
          by_cases hu : s.wire = .UNCONNECTED
          · cases hp : s.position <;>
              simp [wire_step, hu, hp, advance_from_unconnected]
          · simpa [wire_step, hu] using ih
      | announce_wait_elapsed =>
          by_cases hu : s.wire = .WAIT_TO_SEND_ANNOUNCE
          · simp [wire_step, hu]
          · simp [wire_step, hu]
      | discovery_complete now_ms =>
          by_cases hu : s.wire = .DISCOVERY
          · simp [wire_step, hu]
          · simpa [wire_step, hu] using ih
      | monitor_received now_ms =>
          by_cases hu : s.wire = .RUNNING
          · simp [wire_step, hu]
          · simpa [wire_step, hu] using ih
      | tick_monitor_check now_ms =>
          by_cases hu : s.wire = .RUNNING ∧ s.last_monitor_ms + timeout_ms < now_ms
          · simp [wire_step, hu, handler_reset]
          · simpa [wire_step, hu] using ih
      | protocol_violation =>
          by_cases hu : s.wire = .UNCONNECTED
          · simp [wire_step, hu]
          · simp [wire_step, hu, handler_reset]
      | receive_byte b =>
          simpa [wire_step] using ih
  | enq s d t p n hr ih =>
      unfold enqueue_message
      split_ifs <;> simpa using ih
  | drain s hr ih =>
      cases hpd : s.pending <;> simpa [drain_pending, hpd] using ih

/-- Claim C3: in every reachable state of the wire protocol state machine,
WAIT_TO_SEND_ANNOUNCE implies that the link position is LEFT_MOST; and
from UNCONNECTED, a topology change to LEFT_MOST moves to
WAIT_TO_SEND_ANNOUNCE while a topology change to MIDDLE or RIGHT_MOST
moves directly to DISCOVERY, so only the leftmost node ever originates
discovery. -/
theorem C3_wait_announce_only_leftmost (timeout_ms : Nat)
    (s : handler_state) (h : reachable timeout_ms s) :
    (s.wire = .WAIT_TO_SEND_ANNOUNCE → s.position = .LEFT_MOST) ∧
    (s.wire = .UNCONNECTED →
      (wire_step timeout_ms s (.topology_change .LEFT_MOST)).1.wire =
        .WAIT_TO_SEND_ANNOUNCE ∧
      (wire_step timeout_ms s (.topology_change .MIDDLE)).1.wire = .DISCOVERY ∧
      (wire_step timeout_ms s (.topology_change .RIGHT_MOST)).1.wire = .DISCOVERY) := by
  refine ⟨reachable_wait_leftmost timeout_ms s h, ?_⟩
  intro hu
  simp [wire_step, hu, advance_from_unconnected]

/-- Witness for C3 at the reachable power-on state. -/
theorem C3_wait_announce_only_leftmost_witness :
    (initial_handler.wire = .WAIT_TO_SEND_ANNOUNCE →
      initial_handler.position = .LEFT_MOST) ∧
    (initial_handler.wire = .UNCONNECTED →
      (wire_step 25 initial_handler (.topology_change .LEFT_MOST)).1.wire =
        .WAIT_TO_SEND_ANNOUNCE ∧
      (wire_step 25 initial_handler (.topology_change .MIDDLE)).1.wire = .DISCOVERY ∧
      (wire_step 25 initial_handler (.topology_change .RIGHT_MOST)).1.wire =
        .DISCOVERY) :=
  C3_wait_announce_only_leftmost 25 initial_handler reachable.init

/-- One step of the exchanger run, spelled out. -/
theorem id_exchanger_run_cons (peer_count : Nat) (s : id_exchanger_state)
    (e : exchange_event) (es : List exchange_event) :
    id_exchanger_run peer_count s (e :: es) =
      ((id_exchanger_run peer_count (id_exchanger_step peer_count s e).1 es).1,
       (id_exchanger_step peer_count s e).2 ++
         (id_exchanger_run peer_count (id_exchanger_step peer_count s e).1 es).2) :=
  rfl

/-- Injection counting distributes over action list concatenation. -/
theorem count_injections_append (l1 l2 : List exchange_action) :
    count_injections (l1 ++ l2) = count_injections l1 + count_injections l2 := by
  induction l1 with
  | nil => simp [count_injections]
  | cons a rest ih =>
      cases a <;> simp [count_injections, ih, Nat.add_right_comm]

/-- Once the send-own flag has been cleared, no later event makes the
exchanger inject the own identity again. -/
theorem no_injection_after_flag_cleared (peer_count : Nat)
    (events : List exchange_event) (s : id_exchanger_state)
    (h : s.send_ours_on_next_send_complete = false) :
    count_injections (id_exchanger_run peer_count s events).2 = 0 := by
  induction events generalizing s with
  | nil => simp [id_exchanger_run, count_injections]
  | cons e es ih =>
      rw [id_exchanger_run_cons, count_injections_append]
      cases e with
      | new_message id =>
          have h2 := ih
            { s with message_received_count := (s.message_received_count + 1) % 32 } h
          simp only [id_exchanger_step]
          split_ifs <;> simp [count_injections, h2]
      | message_sent =>
          simp only [id_exchanger_step, h]
          simp [count_injections, ih s h]

/-- Starting from a state that must still inject its own identity, the
run injects exactly once when some send completion occurs and never
otherwise, regardless of how many identity messages are relayed. -/
theorem count_injections_of_flag_set (peer_count : Nat)
    (events : List exchange_event) (s : id_exchanger_state)
    (h : s.send_ours_on_next_send_complete = true) :
    count_injections (id_exchanger_run peer_count s events).2 =
      if has_message_sent events then 1 else 0 := by
  induction events generalizing s with
  | nil => simp [id_exchanger_run, count_injections, has_message_sent]
  | cons e es ih =>
      rw [id_exchanger_run_cons, count_injections_append]
      cases e with
      | new_message id =>
          have h2 := ih
            { s with message_received_count := (s.message_received_count + 1) % 32 } h
          simp only [id_exchanger_step, has_message_sent]
          split_ifs <;> simp_all [count_injections]
      | message_sent =>
          simp only [id_exchanger_step, h, if_true]
          have h0 := no_injection_after_flag_cleared peer_count es
            { s with
                send_ours_on_next_send_complete := false
                done_after_sending_ours := true }
            (by simp)
          simp [count_injections, has_message_sent, h0]

/-- The completion action is emitted exactly when the received-message
count passes the known peer count during the run (counts stay below the
5 bit wrap). -/
theorem completion_iff_window (peer_count : Nat)
    (events : List exchange_event) (s : id_exchanger_state)
    (hle : s.message_received_count + count_new_messages events ≤ 31) :
    (exchange_action.discovery_completed ∈ (id_exchanger_run peer_count s events).2 ↔
      s.message_received_count < peer_count ∧
      peer_count ≤ s.message_received_count + count_new_messages events) := by
  induction events generalizing s with
  | nil =>
      simp [id_exchanger_run, count_new_messages]
  | cons e es ih =>
      rw [id_exchanger_run_cons]
      cases e with
      | message_sent =>
          simp only [count_new_messages] at hle ⊢
          simp only [id_exchanger_step]
          by_cases hf : s.send_ours_on_next_send_complete
          · rw [if_pos hf]
            have hx := ih
              { s with
                  send_ours_on_next_send_complete := false
                  done_after_sending_ours := true }
              (by simpa using hle)
            simp only at hx
            simp [hx]
          · rw [if_neg hf]
            have hx := ih s hle
            simp [hx]
      | new_message id =>
          simp only [count_new_messages] at hle ⊢
          have hcnt : (s.message_received_count + 1) % 32 =
              s.message_received_count + 1 :=
            Nat.mod_eq_of_lt (by omega)
          simp only [id_exchanger_step, hcnt]
          by_cases hc : s.message_received_count + 1 = peer_count
          · rw [if_pos hc]
            simp
            omega
          · rw [if_neg hc]
            have hx := ih
              { s with
                  message_received_count := s.message_received_count + 1 }
              (by simp; omega)
            simp only at hx
            simp [hx]
            omega

/-- Claim C6: over any round of the identity exchange started by
id_exchanger_start, the node injects its own identity exactly once as soon
as any send completion occurs (and never again), no matter how many
identity messages it relays; and the round-completed action is emitted
exactly when the received-message count reaches the known peer count, at
which point the badge state machine leaves EXCHANGING_IDS for
ANIMATE_PAIRING. -/
theorem C6_identity_exchange_round (peer_count : Nat)
    (events : List exchange_event)
    (hle : count_new_messages events ≤ 31) :
    count_injections (id_exchanger_run peer_count id_exchanger_start events).2 =
      (if has_message_sent events then 1 else 0) ∧
    (exchange_action.discovery_completed ∈
        (id_exchanger_run peer_count id_exchanger_start events).2 ↔
      0 < peer_count ∧ peer_count ≤ count_new_messages events) ∧
    badge_on_discovery_completed .EXCHANGING_IDS = .ANIMATE_PAIRING ∧
    badge_on_discovery_completed .EXCHANGING_IDS ≠ .EXCHANGING_IDS := by
  refine ⟨?_, ?_, rfl, by decide⟩
  · exact count_injections_of_flag_set peer_count events id_exchanger_start rfl
  · have hx := completion_iff_window peer_count events id_exchanger_start
      (by simpa [id_exchanger_start] using hle)
    simpa [id_exchanger_start] using hx

/-- Witness for C6: three peers, one relay before the own send completes,
three received identity messages in total. -/
theorem C6_identity_exchange_round_witness :
    count_injections (id_exchanger_run 3 id_exchanger_start
        [.new_message 4, .message_sent, .new_message 7, .new_message 9]).2 =
      (if has_message_sent
          [.new_message 4, .message_sent, .new_message 7, .new_message 9]
        then 1 else 0) ∧
    (exchange_action.discovery_completed ∈
        (id_exchanger_run 3 id_exchanger_start
          [.new_message 4, .message_sent, .new_message 7, .new_message 9]).2 ↔
      0 < 3 ∧ 3 ≤ count_new_messages
        [.new_message 4, .message_sent, .new_message 7, .new_message 9]) ∧
    badge_on_discovery_completed .EXCHANGING_IDS = .ANIMATE_PAIRING ∧
    badge_on_discovery_completed .EXCHANGING_IDS ≠ .EXCHANGING_IDS :=
  C6_identity_exchange_round 3
    [.new_message 4, .message_sent, .new_message 7, .new_message 9] (by decide)

end NsecBadge
